import Mathlib

set_option maxHeartbeats 1000000
set_option maxRecDepth 4000

/-!
Shallow embedding of the generation-session orchestrator of the codewiki
frontend: the diagram stream consumer of `src/frontend/hooks/useDiagram.ts`
(frame decoding, buffer accumulation, terminal handling, cache lookup) and
the wiki generation flow of `src/frontend/app/[owner]/[repo]/page.tsx`
(start request, single-flight guard, status polling, cache check).

JavaScript strings are modelled as lists of characters (`Str`), JSON
optional fields as `Option`, and JavaScript truthiness of strings via
`strTruthy`.  The external `JSON.parse` is kept abstract as a parameter
`P : Str → Option StreamResponse` (`some` = parse succeeded, `none` =
parse threw).
-/

/-- JavaScript strings, modelled as lists of characters. -/
abbrev Str := List Char

/-- JavaScript truthiness of an optional string field: `undefined` (here
`none`) and the empty string are falsy. -/
def strTruthy : Option Str → Bool
  | none => false
  | some s => !s.isEmpty

/-- The closed status union of `StreamState` in
`src/frontend/hooks/useDiagram.ts` (lines 3-17). -/
inductive StatusTag where
  | idle
  | started
  | explanation_sent
  | explanation
  | explanation_chunk
  | mapping_sent
  | mapping
  | mapping_chunk
  | diagram_sent
  | diagram
  | diagram_chunk
  | complete
  | error
deriving DecidableEq, Repr

/-- A decoded `StreamResponse` frame (useDiagram.ts lines 31-39). -/
structure StreamResponse where
  status : StatusTag
  message : Option Str := none
  chunk : Option Str := none
  explanation : Option Str := none
  mapping : Option Str := none
  diagram : Option Str := none
  error : Option Str := none
deriving DecidableEq, Repr

/-- The React `StreamState` published through `setState`
(useDiagram.ts lines 3-23). -/
structure StreamState where
  status : StatusTag
  message : Option Str := none
  explanation : Option Str := none
  mapping : Option Str := none
  diagram : Option Str := none
  error : Option Str := none
deriving DecidableEq, Repr

/-- Full processing state of `generateDiagram`: the three local
accumulation buffers (`let explanation/mapping/diagram` of lines 77-79),
the published `StreamState`, the `loading` flag, and `stopped`, which
records that `processStream` has executed its early `return`. -/
structure ProcState where
  explanation : Str
  mapping : Str
  diagram : Str
  state : StreamState
  loading : Bool
  stopped : Bool
deriving DecidableEq, Repr

/-- Effect of one successfully parsed frame on the processing state: the
`if (data.error)` guard and the `switch (data.status)` of `processStream`
(useDiagram.ts lines 93-180).  Note that the error branch and the
`complete`/`error` cases call `setState` with a fresh object (no spread of
`prev`), while the progress cases spread `prev`, and the `_chunk` cases
spread `prev` without touching `status`. -/
def applyFrame (st : ProcState) (data : StreamResponse) : ProcState :=
  if strTruthy data.error then
    { st with
        state := { status := .error, error := data.error }
        loading := false
        stopped := true }
  else
    match data.status with
    | .started =>
        { st with state := { st.state with status := .started, message := data.message } }
    | .explanation_sent =>
        { st with state := { st.state with status := .explanation_sent, message := data.message } }
    | .explanation =>
        { st with state := { st.state with status := .explanation, message := data.message } }
    | .explanation_chunk =>
        if strTruthy data.chunk then
          let buf := st.explanation ++ data.chunk.getD []
          { st with explanation := buf, state := { st.state with explanation := some buf } }
        else st
    | .mapping_sent =>
        { st with state := { st.state with status := .mapping_sent, message := data.message } }
    | .mapping =>
        { st with state := { st.state with status := .mapping, message := data.message } }
    | .mapping_chunk =>
        if strTruthy data.chunk then
          let buf := st.mapping ++ data.chunk.getD []
          { st with mapping := buf, state := { st.state with mapping := some buf } }
        else st
    | .diagram_sent =>
        { st with state := { st.state with status := .diagram_sent, message := data.message } }
    | .diagram =>
        { st with state := { st.state with status := .diagram, message := data.message } }
    | .diagram_chunk =>
        if strTruthy data.chunk then
          let buf := st.diagram ++ data.chunk.getD []
          { st with diagram := buf, state := { st.state with diagram := some buf } }
        else st
    | .complete =>
        { st with state := { status := .complete, explanation := data.explanation, diagram := data.diagram } }
    | .error =>
        { st with state := { status := .error, error := data.error } }
    | .idle => st

/-- JavaScript `chunk.split('\n')` on the character-list model: splitting
keeps empty segments, and the empty string splits to `[""]`. -/
def splitNl : Str → List Str
  | [] => [[]]
  | c :: rest =>
      if c = '\n' then [] :: splitNl rest
      else
        match splitNl rest with
        | [] => [[c]]
        | l :: ls => (c :: l) :: ls

/-- The record delimiter tag of the stream protocol. -/
def dataColon : Str := "data:".toList

/-- JavaScript `line.startsWith('data:')` (useDiagram.ts line 90). -/
def startsWithData (line : Str) : Bool := dataColon.isPrefixOf line

/-- Processing of one candidate line (useDiagram.ts lines 89-184),
parameterised by the JSON parser `P` applied to `line.slice(5)`; a parse
failure is caught and skipped (lines 181-183).  Once `stopped` is set the
stream loop has returned and no further line has any effect. -/
def processLine (P : Str → Option StreamResponse) (st : ProcState) (line : Str) : ProcState :=
  if st.stopped then st
  else if startsWithData line then
    match P (line.drop 5) with
    | some data => applyFrame st data
    | none => st
  else st

/-- Fold of `processLine` over a list of already-split lines. -/
def processLines (P : Str → Option StreamResponse) (st : ProcState) (lines : List Str) : ProcState :=
  lines.foldl (processLine P) st

/-- Processing of one transport read (useDiagram.ts lines 87-185): the
decoded text is split on newlines and each line is handled; no text is
carried over from one read to the next. -/
def processRead (P : Str → Option StreamResponse) (st : ProcState) (chunk : Str) : ProcState :=
  processLines P st (splitNl chunk)

/-- The read loop of `processStream` (useDiagram.ts lines 83-186) over the
list of reads delivered by the transport. -/
def processStream (P : Str → Option StreamResponse) (st : ProcState) (reads : List Str) : ProcState :=
  reads.foldl (processRead P) st

/-- Processing state at the point `processStream` starts (useDiagram.ts
lines 49-79): status `started` with the initial message, empty buffers,
`loading` true. -/
def initProc : ProcState :=
  { explanation := []
    mapping := []
    diagram := []
    state := { status := .started, message := some "Generating diagram...".toList }
    loading := true
    stopped := false }

/-- Outcome of the cached-diagram lookup fetch in `getDiagram`
(useDiagram.ts lines 249-256): `ok d` is a successful response whose
parsed JSON carries `d` in the `diagram` field (`none` when the field is
absent or the body is null), `httpError` a non-success status, `thrown` a
lookup fetch (or body read) that threw. -/
inductive DiagramLookupOutcome where
  | ok (diagram : Option Str)
  | httpError
  | thrown
deriving DecidableEq, Repr

/-- Observable result of one `getDiagram` run: how many times
`generateDiagram` was invoked, the `diagram` value set from the cache path
(empty when untouched), the `error` state, and the `loading` flag after
the `finally`. -/
structure DiagramFetchResult where
  generateCalls : Nat
  diagram : Str
  error : Str
  loading : Bool
deriving DecidableEq, Repr

/-- `getDiagram` (useDiagram.ts lines 240-264): a cache lookup whose hit
(truthy `diagram` field) is used directly with no generation; an ok
response without a usable diagram, or a non-success status, falls through
to `generateDiagram()`; a thrown lookup error is caught, sets the error
message, and never reaches `generateDiagram()`; the `finally` clears
`loading` on every path. -/
def getDiagram : DiagramLookupOutcome → DiagramFetchResult
  | .ok d =>
      if strTruthy d then
        { generateCalls := 0, diagram := d.getD [], error := [], loading := false }
      else
        { generateCalls := 1, diagram := [], error := [], loading := false }
  | .httpError => { generateCalls := 1, diagram := [], error := [], loading := false }
  | .thrown =>
      { generateCalls := 0, diagram := []
        error := "An error occurred while generating the diagram".toList
        loading := false }

/-- Parsed body of the wiki cache lookup in `processRepo`
(page.tsx lines 272-307): truthiness of `cachedWiki.wiki_structure` and
the number of keys of `cachedWiki.generated_pages` when that field is
present. -/
structure CachedWiki where
  wiki_structure : Bool
  generated_pages : Option Nat
deriving DecidableEq, Repr

/-- Outcome of the wiki cache lookup fetch in `processRepo`. -/
inductive WikiLookupOutcome where
  | ok (body : Option CachedWiki)
  | httpError
  | thrown
deriving DecidableEq, Repr

/-- The cache-hit validity check of `processRepo` (page.tsx lines
274-279): `cachedWiki && cachedWiki.wiki_structure &&
cachedWiki.generated_pages && Object.keys(cachedWiki.generated_pages).length > 0`. -/
def validCachedWiki : Option CachedWiki → Bool
  | none => false
  | some w =>
      w.wiki_structure &&
        match w.generated_pages with
        | none => false
        | some n => decide (0 < n)

/-- Observable result of one `processRepo` run (before any started
generation resolves). -/
structure RepoPageResult where
  startCalls : Nat
  isLoading : Bool
  errorShown : Option Str
  usedCache : Bool
deriving DecidableEq, Repr

/-- `processRepo` (page.tsx lines 261-313): a valid cached wiki is
installed and the function returns early; every other lookup outcome —
ok-but-invalid body, non-success status, or a thrown lookup error (caught
and only logged) — falls through to exactly one `startWikiGeneration()`
call, with no error surfaced by the lookup itself. -/
def processRepo : WikiLookupOutcome → RepoPageResult
  | .ok body =>
      if validCachedWiki body then
        { startCalls := 0, isLoading := false, errorShown := none, usedCache := true }
      else
        { startCalls := 1, isLoading := true, errorShown := none, usedCache := false }
  | .httpError => { startCalls := 1, isLoading := true, errorShown := none, usedCache := false }
  | .thrown => { startCalls := 1, isLoading := true, errorShown := none, usedCache := false }

/-- The fixed poll interval passed to `setInterval` (page.tsx line 233). -/
def wikiPollIntervalMs : Nat := 2000

/-- The default initializing message of the wiki page. -/
def initializingMsg : Str := "Initializing wiki generation...".toList

/-- State of the wiki page relevant to generation start and polling
(page.tsx lines 135-156): loading flags, surfaced error, task id, the
single-flight `requestInProgress` guard, whether the immediate first
status check was issued, the active recurring interval (in ms) if any,
the tracked structure (opaque payload) and the in-progress page set. -/
structure WikiPageState where
  isLoading : Bool
  loadingMessage : Option Str
  error : Option Str
  taskId : Option Str
  requestInProgress : Bool
  immediatePollIssued : Bool
  intervalMs : Option Nat
  wikiStructure : Option Str
  pagesInProgress : List Str
deriving DecidableEq, Repr

/-- Initial wiki page state (page.tsx lines 135-156). -/
def initWikiPage : WikiPageState :=
  { isLoading := true
    loadingMessage := some initializingMsg
    error := none
    taskId := none
    requestInProgress := false
    immediatePollIssued := false
    intervalMs := none
    wikiStructure := none
    pagesInProgress := [] }

/-- Outcome of the `/api/wiki/generate` start fetch. -/
inductive StartOutcome where
  | ok (taskId : Str)
  | httpError
  | thrown (msg : Str)
deriving DecidableEq, Repr

/-- The synchronous prefix of `startWikiGeneration` up to its first await
(page.tsx lines 169-201): the `requestInProgress` guard check — an
in-flight request is rejected with an early return and no fetch — and,
when admitted, the state reset plus in-flight marking.  The third
component counts generation fetches issued. -/
def startWikiAttempt (st : WikiPageState) : Bool × WikiPageState × Nat :=
  if st.requestInProgress then (false, st, 0)
  else
    (true,
     { st with
         wikiStructure := none
         pagesInProgress := []
         error := none
         requestInProgress := true
         isLoading := true
         loadingMessage := some initializingMsg },
     1)

/-- Resumption of an admitted `startWikiGeneration` run once the start
fetch resolves (page.tsx lines 229-248): on an ok response the task id is
stored, an immediate status check is issued and the recurring check is
armed; a non-success status is only logged; a thrown error sets the error
state and stops loading.  The `finally` releases the guard on every
path. -/
def finishWikiAttempt (st : WikiPageState) (o : StartOutcome) : WikiPageState :=
  let st1 :=
    match o with
    | .ok id =>
        { st with
            taskId := some id
            immediatePollIssued := true
            intervalMs := some wikiPollIntervalMs }
    | .httpError => st
    | .thrown msg =>
        { st with isLoading := false, error := some msg, loadingMessage := none }
  { st1 with requestInProgress := false }

/-- A whole `startWikiGeneration` run for a given start-fetch outcome:
the synchronous prefix followed by the resumption. -/
def startWikiGeneration (st : WikiPageState) (o : StartOutcome) : WikiPageState :=
  let a := startWikiAttempt st
  if a.1 then finishWikiAttempt a.2.1 o else a.2.1

/-- One status response body of `/api/wiki/status` as used by
`pollStatus` (page.tsx lines 203-227); `result` is the opaque
`data.result.wiki_structure` payload when `data.result` is present. -/
structure PollData where
  status : Str
  message : Option Str := none
  error : Option Str := none
  result : Option Str := none
  progress : List Str := []
deriving DecidableEq, Repr

/-- Input to one `pollStatus` invocation: a parsed response, or a poll
whose fetch/parse threw. -/
inductive PollInput where
  | response (d : PollData)
  | transportFailure
deriving DecidableEq, Repr

/-- One `pollStatus` invocation (page.tsx lines 203-227): the message is
updated first; a `success` status or a truthy error clears the recurring
interval and marks the task terminal; a `processing` status with a result
snapshot replaces the structure and the in-progress page set; a thrown
poll clears the recurring interval and nothing else. -/
def pollStatus (st : WikiPageState) : PollInput → WikiPageState
  | .transportFailure => { st with intervalMs := none }
  | .response d =>
      let st1 := { st with loadingMessage := d.message }
      if d.status = "success".toList ∨ strTruthy d.error = true then
        { st1 with intervalMs := none, isLoading := false, loadingMessage := none }
      else if d.status = "processing".toList ∧ d.result.isSome then
        { st1 with wikiStructure := d.result, pagesInProgress := d.progress.dedup }
      else st1

/-- Serialisation of a list of protocol lines into one transport read:
each line followed by the newline record delimiter. -/
def serializeLines (ls : List Str) : Str := (ls.map (fun l => l ++ ['\n'])).flatten

/-- The chunk payload a frame contributes to the buffer selected by the
`_chunk` tag `t` (its `chunk` field when its status is `t`, nothing
otherwise). -/
def chunkOf (t : StatusTag) (f : StreamResponse) : Str :=
  if f.status = t then f.chunk.getD [] else []

/-- Concatenation, in arrival order, of the chunks the given frames aim
at the buffer selected by `t`. -/
def chunksJoin (t : StatusTag) (fs : List StreamResponse) : Str :=
  (fs.map (chunkOf t)).flatten

/-- A serialised `_chunk` frame: the line carries the record tag, is
newline-free, parses (via `P`, standing for `JSON.parse` on
`line.slice(5)`) to the paired frame, and the frame is a `_chunk` frame
with no error field. -/
def ChunkPair (P : Str → Option StreamResponse) (p : Str × StreamResponse) : Prop :=
  startsWithData p.1 = true ∧ '\n' ∉ p.1 ∧ P (p.1.drop 5) = some p.2 ∧
    (p.2.status = .explanation_chunk ∨ p.2.status = .mapping_chunk ∨
      p.2.status = .diagram_chunk) ∧
    strTruthy p.2.error = false

instance (P : Str → Option StreamResponse) (p : Str × StreamResponse) :
    Decidable (ChunkPair P p) := by
  unfold ChunkPair
  infer_instance

/-- Status tags whose case in the `switch` only updates `status` and
`message` (useDiagram.ts lines 103-163): every stage announcement, as
opposed to the `_chunk`, `complete` and `error` cases. -/
def isProgressTag : StatusTag → Bool
  | .started | .explanation_sent | .explanation
  | .mapping_sent | .mapping
  | .diagram_sent | .diagram => true
  | _ => false

/-- Payload of an `explanation_chunk` frame carrying `"ab"`, as the text
after the `data:` tag. -/
def pChunkAB : Str := " \x7b\"status\": \"explanation_chunk\", \"chunk\": \"ab\"\x7d".toList

/-- Payload of an `explanation_chunk` frame carrying `"cd"`. -/
def pChunkCD : Str := " \x7b\"status\": \"explanation_chunk\", \"chunk\": \"cd\"\x7d".toList

/-- Payload of a `mapping_chunk` frame carrying `"mm"`. -/
def pChunkMM : Str := " \x7b\"status\": \"mapping_chunk\", \"chunk\": \"mm\"\x7d".toList

/-- Payload of an `explanation` stage frame. -/
def pStage : Str := " \x7b\"status\": \"explanation\", \"message\": \"writing\"\x7d".toList

/-- Payload of a `started` frame. -/
def pStarted : Str := " \x7b\"status\": \"started\", \"message\": \"go\"\x7d".toList

/-- Payload of a `complete` frame with final snapshots. -/
def pComplete : Str :=
  " \x7b\"status\": \"complete\", \"explanation\": \"Hello world\", \"diagram\": \"graph TD\"\x7d".toList

/-- Payload of an error frame whose `error` field is set. -/
def pErrBoom : Str := " \x7b\"status\": \"error\", \"error\": \"boom\"\x7d".toList

/-- Payload of a frame with status `error` but no `error` field. -/
def pErrBare : Str := " \x7b\"status\": \"error\"\x7d".toList

/-- The frame `pChunkAB` denotes. -/
def frameChunkAB : StreamResponse := { status := .explanation_chunk, chunk := some "ab".toList }

/-- The frame `pChunkCD` denotes. -/
def frameChunkCD : StreamResponse := { status := .explanation_chunk, chunk := some "cd".toList }

/-- The frame `pChunkMM` denotes. -/
def frameChunkMM : StreamResponse := { status := .mapping_chunk, chunk := some "mm".toList }

/-- The frame `pStage` denotes. -/
def frameStage : StreamResponse := { status := .explanation, message := some "writing".toList }

/-- The frame `pStarted` denotes. -/
def frameStarted : StreamResponse := { status := .started, message := some "go".toList }

/-- The frame `pComplete` denotes. -/
def frameComplete : StreamResponse :=
  { status := .complete, explanation := some "Hello world".toList, diagram := some "graph TD".toList }

/-- The frame `pErrBoom` denotes. -/
def frameErrBoom : StreamResponse := { status := .error, error := some "boom".toList }

/-- The frame `pErrBare` denotes. -/
def frameErrBare : StreamResponse := { status := .error }

/-- Concrete stand-in for `JSON.parse` on the example payloads above,
agreeing with it on exactly these inputs; every other string — in
particular any strict prefix or suffix of one of them — fails to parse,
just as `JSON.parse` throws on truncated JSON. -/
def parseFix (s : Str) : Option StreamResponse :=
  if s = pChunkAB then some frameChunkAB
  else if s = pChunkCD then some frameChunkCD
  else if s = pChunkMM then some frameChunkMM
  else if s = pStage then some frameStage
  else if s = pStarted then some frameStarted
  else if s = pComplete then some frameComplete
  else if s = pErrBoom then some frameErrBoom
  else if s = pErrBare then some frameErrBare
  else none

/-- A protocol line for the given payload: the record tag followed by
the payload text. -/
def mkDataLine (p : Str) : Str := dataColon ++ p

/-- First half of the serialised `pChunkAB` line, cut in the middle of
the JSON payload, as one transport read. -/
def splitReadA : Str := "data: \x7b\"status\": \"explanation_chu".toList

/-- Second half of the serialised `pChunkAB` line (with its trailing
newline) as the following transport read. -/
def splitReadB : Str := "nk\", \"chunk\": \"ab\"\x7d\n".toList

/-- A malformed protocol line: tagged `data:` but whose payload is not
parseable JSON. -/
def badLine : Str := "data: oops".toList

/-- Two whole-line reads carrying three serialised chunk frames. -/
def groupsW : List (List (Str × StreamResponse)) :=
  [[(mkDataLine pChunkAB, frameChunkAB)],
   [(mkDataLine pChunkCD, frameChunkCD), (mkDataLine pChunkMM, frameChunkMM)]]

/-- The transport reads serialising `groupsW`. -/
def readsW : List Str := groupsW.map (fun g => serializeLines (g.map Prod.fst))

/-- Processing state after one `mapping_chunk` frame has been applied. -/
def stWithMapping : ProcState :=
  processStream parseFix initProc [serializeLines [mkDataLine pChunkMM]]

/-- Processing state after one `explanation_chunk` frame has been applied. -/
def stWithExp : ProcState :=
  processStream parseFix initProc [serializeLines [mkDataLine pChunkAB]]

/-- A poll response reporting success. -/
def pollSuccessData : PollData := { status := "success".toList }

/-- A stopped processing state is a fixed point of line handling. -/
theorem processLine_stopped (P : Str → Option StreamResponse) (st : ProcState) (line : Str)
    (h : st.stopped = true) : processLine P st line = st := by
  simp [processLine, h]

/-- A stopped processing state is a fixed point of the line fold. -/
theorem processLines_stopped (P : Str → Option StreamResponse) (lines : List Str)
    (st : ProcState) (h : st.stopped = true) : processLines P st lines = st := by
  induction lines with
  | nil => rfl
  | cons l ls ih =>
      show processLines P (processLine P st l) ls = st
      rw [processLine_stopped P st l h]
      exact ih

/-- A stopped processing state is a fixed point of handling one read. -/
theorem processRead_stopped (P : Str → Option StreamResponse) (chunk : Str)
    (st : ProcState) (h : st.stopped = true) : processRead P st chunk = st :=
  processLines_stopped P (splitNl chunk) st h

/-- A stopped processing state is a fixed point of the whole read loop. -/
theorem processStream_stopped (P : Str → Option StreamResponse) (reads : List Str)
    (st : ProcState) (h : st.stopped = true) : processStream P st reads = st := by
  induction reads with
  | nil => rfl
  | cons r rs ih =>
      show processStream P (processRead P st r) rs = st
      rw [processRead_stopped P r st h]
      exact ih

/-- Effect of a frame whose `error` field is truthy: the published state
is replaced wholesale, loading ends, and the loop returns. -/
theorem applyFrame_error (st : ProcState) (d : StreamResponse)
    (h : strTruthy d.error = true) :
    applyFrame st d =
      { st with
          state := { status := .error, error := d.error }
          loading := false
          stopped := true } := by
  simp [applyFrame, h]

/-- A falsy optional string defaults to the empty string. -/
theorem getD_nil_of_falsy (o : Option Str) (h : strTruthy o = false) : o.getD [] = [] := by
  cases o with
  | none => rfl
  | some s =>
      cases s with
      | nil => rfl
      | cons a t => simp [strTruthy] at h

/-- Splitting a newline-free line followed by the delimiter peels off
exactly that line. -/
theorem splitNl_append_nl (l t : Str) (h : '\n' ∉ l) :
    splitNl (l ++ '\n' :: t) = l :: splitNl t := by
  induction l with
  | nil => simp [splitNl]
  | cons c cs ih =>
      have hc : ¬ c = '\n' := fun hh => h (hh ▸ List.mem_cons_self c cs)
      have hcs : '\n' ∉ cs := fun hm => h (List.mem_cons_of_mem c hm)
      rw [List.cons_append]
      simp only [splitNl, hc, if_false, ih hcs]

/-- Splitting a serialised list of newline-free lines recovers the lines
plus the trailing empty segment. -/
theorem splitNl_serialize (ls : List Str) (h : ∀ l ∈ ls, '\n' ∉ l) :
    splitNl (serializeLines ls) = ls ++ [[]] := by
  induction ls with
  | nil => simp [serializeLines, splitNl]
  | cons l ls ih =>
      have h1 : '\n' ∉ l := h l (List.mem_cons_self l ls)
      have h2 : ∀ x ∈ ls, '\n' ∉ x := fun x hx => h x (List.mem_cons_of_mem l hx)
      have hser : serializeLines (l :: ls) = l ++ '\n' :: serializeLines ls := by
        simp [serializeLines]
      rw [hser, splitNl_append_nl l _ h1, ih h2, List.cons_append]

/-- The empty line is skipped by line handling. -/
theorem processLine_nil (P : Str → Option StreamResponse) (st : ProcState) :
    processLine P st [] = st := by
  have h : startsWithData [] = false := by decide
  simp [processLine, h]

/-- Handling one read made of whole newline-free lines is the line fold
over those lines. -/
theorem processRead_serialize (P : Str → Option StreamResponse) (st : ProcState)
    (ls : List Str) (h : ∀ l ∈ ls, '\n' ∉ l) :
    processRead P st (serializeLines ls) = processLines P st ls := by
  unfold processRead
  rw [splitNl_serialize ls h]
  unfold processLines
  rw [List.foldl_append]
  simp [processLine_nil]

/-- The read loop over reads made of whole newline-free lines is the line
fold over the flattened line list. -/
theorem processStream_groups (P : Str → Option StreamResponse) (groups : List (List Str)) :
    ∀ st : ProcState, (∀ l ∈ groups.flatten, '\n' ∉ l) →
      processStream P st (groups.map serializeLines) = processLines P st groups.flatten := by
  induction groups with
  | nil => intro st _; rfl
  | cons g gs ih =>
      intro st h
      have hg : ∀ l ∈ g, '\n' ∉ l := fun l hl =>
        h l (by simp [List.mem_flatten]; exact Or.inl hl)
      have hgs : ∀ l ∈ gs.flatten, '\n' ∉ l := fun l hl =>
        h l (by simp [List.mem_flatten] at hl ⊢; exact Or.inr hl)
      show processStream P (processRead P st (serializeLines g)) (gs.map serializeLines)
            = processLines P st (g ++ gs.flatten)
      rw [processRead_serialize P st g hg, ih _ hgs]
      unfold processLines
      rw [List.foldl_append]

/-- Flattening commutes with mapping over the inner lists. -/
theorem flatten_map_inner {α β : Type} (L : List (List α)) (f : α → β) :
    (L.map (List.map f)).flatten = L.flatten.map f := by
  induction L with
  | nil => rfl
  | cons a L ih => simp only [List.map_cons, List.flatten_cons, List.map_append, ih]

/-- Effect of a `_chunk` frame with no error field: processing never
stops, and exactly the buffer matching the tag grows by the frame's
chunk. -/
theorem applyFrame_chunk (st : ProcState) (d : StreamResponse)
    (herr : strTruthy d.error = false)
    (htag : d.status = .explanation_chunk ∨ d.status = .mapping_chunk ∨
      d.status = .diagram_chunk) :
    (applyFrame st d).stopped = st.stopped ∧
    (applyFrame st d).explanation = st.explanation ++ chunkOf .explanation_chunk d ∧
    (applyFrame st d).mapping = st.mapping ++ chunkOf .mapping_chunk d ∧
    (applyFrame st d).diagram = st.diagram ++ chunkOf .diagram_chunk d := by
  rcases htag with h | h | h <;>
    (cases hc : strTruthy d.chunk
     · simp [applyFrame, herr, h, hc, chunkOf, getD_nil_of_falsy d.chunk hc]
     · simp [applyFrame, herr, h, hc, chunkOf])

/-- Folding the line handler over serialised `_chunk` frames appends the
chunks, buffer by buffer, in arrival order. -/
theorem processLines_chunkPairs (P : Str → Option StreamResponse)
    (pairs : List (Str × StreamResponse)) :
    ∀ st : ProcState, st.stopped = false → (∀ p ∈ pairs, ChunkPair P p) →
      (processLines P st (pairs.map Prod.fst)).stopped = false ∧
      (processLines P st (pairs.map Prod.fst)).explanation
        = st.explanation ++ chunksJoin .explanation_chunk (pairs.map Prod.snd) ∧
      (processLines P st (pairs.map Prod.fst)).mapping
        = st.mapping ++ chunksJoin .mapping_chunk (pairs.map Prod.snd) ∧
      (processLines P st (pairs.map Prod.fst)).diagram
        = st.diagram ++ chunksJoin .diagram_chunk (pairs.map Prod.snd) := by
  induction pairs with
  | nil =>
      intro st hst _
      refine ⟨hst, ?_, ?_, ?_⟩ <;> simp [processLines, chunksJoin]
  | cons p ps ih =>
      intro st hst hall
      obtain ⟨hpre, _, hparse, htag, herr⟩ := hall p (List.mem_cons_self p ps)
      have hline : processLine P st p.1 = applyFrame st p.2 := by
        simp [processLine, hst, hpre, hparse]
      have hstep := applyFrame_chunk st p.2 herr htag
      have hrest := ih (applyFrame st p.2) (hstep.1.trans hst)
        (fun q hq => hall q (List.mem_cons_of_mem p hq))
      refine ⟨?_, ?_, ?_, ?_⟩
      · show (processLines P (processLine P st p.1) (ps.map Prod.fst)).stopped = false
        rw [hline]
        exact hrest.1
      · show (processLines P (processLine P st p.1) (ps.map Prod.fst)).explanation = _
        rw [hline, hrest.2.1, hstep.2.1]
        simp [chunksJoin, List.append_assoc]
      · show (processLines P (processLine P st p.1) (ps.map Prod.fst)).mapping = _
        rw [hline, hrest.2.2.1, hstep.2.2.1]
        simp [chunksJoin, List.append_assoc]
      · show (processLines P (processLine P st p.1) (ps.map Prod.fst)).diagram = _
        rw [hline, hrest.2.2.2, hstep.2.2.2]
        simp [chunksJoin, List.append_assoc]

/-- Claim C1, counterexample: a single serialised `explanation_chunk`
frame carrying `"ab"` yields the buffer `"ab"` when its `data:` line is
delivered in one read, but the empty buffer when the very same text is
split across two reads in the middle of the line — the implementation
keeps no cross-read text, so the final buffer depends on how frames were
split across transport reads, and a chunk can be lost entirely. -/
theorem c1_split_line_loses_chunk :
    splitReadA ++ splitReadB = serializeLines [mkDataLine pChunkAB] ∧
    parseFix ((mkDataLine pChunkAB).drop 5) = some frameChunkAB ∧
    frameChunkAB.chunk = some "ab".toList ∧
    (processStream parseFix initProc [serializeLines [mkDataLine pChunkAB]]).explanation
      = "ab".toList ∧
    (processStream parseFix initProc [splitReadA, splitReadB]).explanation = [] := by
  refine ⟨by decide, by decide, by decide, by decide, by decide⟩

/-- Claim C1, amended: for every sequence of valid `_chunk` frames, the
final explanation, mapping and diagram buffers equal the concatenation of
the corresponding chunks in arrival order, for every way the serialised
frame lines are distributed into transport reads such that each `data:`
line is contained whole in a single read (the implementation keeps no
cross-read buffer, so a line split across two reads is dropped, as the
counterexample shows). -/
theorem c1_chunk_concatenation (P : Str → Option StreamResponse)
    (groups : List (List (Str × StreamResponse)))
    (h : ∀ p ∈ groups.flatten, ChunkPair P p) :
    (processStream P initProc
        (groups.map (fun g => serializeLines (g.map Prod.fst)))).explanation
      = chunksJoin .explanation_chunk (groups.flatten.map Prod.snd) ∧
    (processStream P initProc
        (groups.map (fun g => serializeLines (g.map Prod.fst)))).mapping
      = chunksJoin .mapping_chunk (groups.flatten.map Prod.snd) ∧
    (processStream P initProc
        (groups.map (fun g => serializeLines (g.map Prod.fst)))).diagram
      = chunksJoin .diagram_chunk (groups.flatten.map Prod.snd) := by
  have hmap : groups.map (fun g => serializeLines (g.map Prod.fst))
      = (groups.map (List.map Prod.fst)).map serializeLines := by
    rw [List.map_map]
    rfl
  have hjoin : (groups.map (List.map Prod.fst)).flatten = groups.flatten.map Prod.fst :=
    flatten_map_inner groups Prod.fst
  have hnl : ∀ l ∈ (groups.map (List.map Prod.fst)).flatten, '\n' ∉ l := by
    rw [hjoin]
    intro l hl
    obtain ⟨p, hp, hpl⟩ := List.mem_map.mp hl
    exact hpl ▸ (h p hp).2.1
  have hcore := processLines_chunkPairs P groups.flatten initProc rfl h
  rw [hmap, processStream_groups P _ initProc hnl, hjoin]
  refine ⟨?_, ?_, ?_⟩
  · rw [hcore.2.1]; rfl
  · rw [hcore.2.2.1]; rfl
  · rw [hcore.2.2.2]; rfl

/-- Claim C1, witness: three concrete chunk frames distributed over two
whole-line reads concatenate in arrival order. -/
theorem c1_chunk_concatenation_witness :
    (processStream parseFix initProc readsW).explanation = "abcd".toList := by
  have h := (c1_chunk_concatenation parseFix groupsW (by decide)).1
  exact h.trans (by decide)

/-- Claim C2, counterexample: after a `complete` frame the consumer keeps
processing — a later `started` frame changes the session state back to
`started`; likewise after an `error`-status frame that carries no error
payload.  Only the `data.error` branch stops the loop. -/
theorem c2_frames_after_complete_processed :
    (processStream parseFix initProc [serializeLines [mkDataLine pComplete]]).state.status
      = StatusTag.complete ∧
    (processStream parseFix initProc
        [serializeLines [mkDataLine pComplete, mkDataLine pStarted]]).state.status
      = StatusTag.started ∧
    (processStream parseFix initProc [serializeLines [mkDataLine pErrBare]]).state.status
      = StatusTag.error ∧
    (processStream parseFix initProc
        [serializeLines [mkDataLine pErrBare, mkDataLine pStarted]]).state.status
      = StatusTag.started := by
  refine ⟨by decide, by decide, by decide, by decide⟩

/-- Claim C2, amended: once a frame whose `error` field is set has been
applied, the session status is `error` and no subsequently delivered read
changes the state — the stream consumer has returned.  (After a `complete`
frame, or an `error`-status frame without an error payload, processing
continues and later frames can still change the state, as the
counterexample shows.) -/
theorem c2_frames_after_error_frame_ignored (P : Str → Option StreamResponse)
    (st : ProcState) (d : StreamResponse) (reads : List Str)
    (herr : strTruthy d.error = true) :
    processStream P (applyFrame st d) reads = applyFrame st d ∧
    (applyFrame st d).state.status = StatusTag.error ∧
    (applyFrame st d).stopped = true := by
  have h1 := applyFrame_error st d herr
  refine ⟨?_, by rw [h1], by rw [h1]⟩
  apply processStream_stopped
  rw [h1]

/-- Claim C2, witness: a concrete error frame, followed by a delivered
`started` frame, leaves the state unchanged. -/
theorem c2_error_frame_witness :
    processStream parseFix (applyFrame initProc frameErrBoom)
        [serializeLines [mkDataLine pStarted]]
      = applyFrame initProc frameErrBoom :=
  (c2_frames_after_error_frame_ignored parseFix initProc frameErrBoom
    [serializeLines [mkDataLine pStarted]] (by decide)).1

/-- Claim C3, counterexample: an error frame arriving after an
`explanation_chunk` frame leaves the local accumulation buffer at `"ab"`,
but the published session state is replaced wholesale — its `explanation`
field, which carried `"ab"` before the error, is dropped to `none`, so the
partial buffers do not stay visible alongside the error message. -/
theorem c3_error_frame_drops_published_buffers :
    stWithExp.state.explanation = some "ab".toList ∧
    (processStream parseFix initProc
        [serializeLines [mkDataLine pChunkAB, mkDataLine pErrBoom]]).state.status
      = StatusTag.error ∧
    (processStream parseFix initProc
        [serializeLines [mkDataLine pChunkAB, mkDataLine pErrBoom]]).explanation
      = "ab".toList ∧
    (processStream parseFix initProc
        [serializeLines [mkDataLine pChunkAB, mkDataLine pErrBoom]]).state.explanation
      = none := by
  refine ⟨by decide, by decide, by decide, by decide⟩

/-- Claim C3, amended: applying a frame whose `error` field is set keeps
the local accumulation buffers at their pre-error contents, sets the
status to `error` carrying the frame's message, and stops processing; but
the published session state is replaced wholesale, so its buffer fields
become `none` rather than staying visible alongside the error. -/
theorem c3_error_frame_local_buffers_frozen (st : ProcState) (d : StreamResponse)
    (herr : strTruthy d.error = true) :
    (applyFrame st d).explanation = st.explanation ∧
    (applyFrame st d).mapping = st.mapping ∧
    (applyFrame st d).diagram = st.diagram ∧
    (applyFrame st d).state.status = StatusTag.error ∧
    (applyFrame st d).state.error = d.error ∧
    (applyFrame st d).state.explanation = none ∧
    (applyFrame st d).state.mapping = none ∧
    (applyFrame st d).state.diagram = none ∧
    (applyFrame st d).stopped = true := by
  rw [applyFrame_error st d herr]
  exact ⟨rfl, rfl, rfl, rfl, rfl, rfl, rfl, rfl, rfl⟩

/-- Claim C3, witness: the concrete error frame applied after an
accumulated explanation chunk keeps the local buffer at `"ab"`. -/
theorem c3_error_frame_witness :
    (applyFrame stWithExp frameErrBoom).explanation = "ab".toList :=
  ((c3_error_frame_local_buffers_frozen stWithExp frameErrBoom (by decide)).1).trans
    (by decide)

/-- Claim C4, counterexample: a transport error thrown during the cached
diagram lookup in `getDiagram` does not fall back to generation — it is
caught, generation is invoked zero times (the claim requires exactly
once), and the error is surfaced to the caller (the claim requires that a
lookup transport error is never surfaced as a hard error). -/
theorem c4_thrown_lookup_skips_generation :
    (getDiagram DiagramLookupOutcome.thrown).generateCalls = 0 ∧
    (getDiagram DiagramLookupOutcome.thrown).error
      = "An error occurred while generating the diagram".toList := by
  exact ⟨rfl, rfl⟩

/-- Claim C4, amended: a cache hit invokes generation zero times, and a
not-found/empty response or a non-success status invokes it exactly once;
but in `getDiagram` a transport error thrown during the lookup invokes
generation zero times and surfaces an error message to the caller.  In the
wiki page's `processRepo`, by contrast, every miss — invalid body,
non-success status, or thrown lookup error — starts generation exactly
once with no error surfaced, and a valid cached wiki starts it zero
times. -/
theorem c4_lookup_generation_counts :
    (∀ d : Option Str, strTruthy d = true →
      (getDiagram (DiagramLookupOutcome.ok d)).generateCalls = 0 ∧
        (getDiagram (DiagramLookupOutcome.ok d)).diagram = d.getD []) ∧
    (∀ d : Option Str, strTruthy d = false →
      (getDiagram (DiagramLookupOutcome.ok d)).generateCalls = 1) ∧
    (getDiagram DiagramLookupOutcome.httpError).generateCalls = 1 ∧
    (getDiagram DiagramLookupOutcome.thrown).generateCalls = 0 ∧
    (getDiagram DiagramLookupOutcome.thrown).error ≠ [] ∧
    (∀ b : Option CachedWiki, validCachedWiki b = true →
      (processRepo (WikiLookupOutcome.ok b)).startCalls = 0) ∧
    (∀ b : Option CachedWiki, validCachedWiki b = false →
      (processRepo (WikiLookupOutcome.ok b)).startCalls = 1) ∧
    (processRepo WikiLookupOutcome.httpError).startCalls = 1 ∧
    (processRepo WikiLookupOutcome.httpError).errorShown = none ∧
    (processRepo WikiLookupOutcome.thrown).startCalls = 1 ∧
    (processRepo WikiLookupOutcome.thrown).errorShown = none := by
  refine ⟨?_, ?_, rfl, rfl, by decide, ?_, ?_, rfl, rfl, rfl, rfl⟩
  · intro d hd
    simp [getDiagram, hd]
  · intro d hd
    simp [getDiagram, hd]
  · intro b hb
    simp [processRepo, hb]
  · intro b hb
    simp [processRepo, hb]

/-- Claim C4, witness: a concrete cache hit invokes generation zero
times. -/
theorem c4_lookup_witness :
    (getDiagram (DiagramLookupOutcome.ok (some "g".toList))).generateCalls = 0 :=
  (c4_lookup_generation_counts.1 (some "g".toList) (by decide)).1

/-- Claim C5: the single-flight `requestInProgress` guard of
`startWikiGeneration` admits a first call, rejects a second call made
while the first is still in flight (performing no duplicate fetch and
leaving the state untouched), and admits a fresh call again after the
guarded run completes through its `finally` on any outcome — ok response,
non-success status, or thrown error. -/
theorem c5_single_flight_guard (st : WikiPageState) (h : st.requestInProgress = false) :
    (startWikiAttempt st).1 = true ∧
    (startWikiAttempt st).2.2 = 1 ∧
    (startWikiAttempt (startWikiAttempt st).2.1).1 = false ∧
    (startWikiAttempt (startWikiAttempt st).2.1).2.2 = 0 ∧
    (startWikiAttempt (startWikiAttempt st).2.1).2.1 = (startWikiAttempt st).2.1 ∧
    (∀ o : StartOutcome, (startWikiAttempt (finishWikiAttempt (startWikiAttempt st).2.1 o)).1 = true) := by
  refine ⟨?_, ?_, ?_, ?_, ?_, ?_⟩
  · simp [startWikiAttempt, h]
  · simp [startWikiAttempt, h]
  · simp [startWikiAttempt, h]
  · simp [startWikiAttempt, h]
  · simp [startWikiAttempt, h]
  · intro o
    cases o <;> simp [startWikiAttempt, finishWikiAttempt, h]

/-- Claim C5, witness: the guard behaviour at the initial page state. -/
theorem c5_single_flight_witness :
    (startWikiAttempt initWikiPage).1 = true ∧
    (startWikiAttempt (startWikiAttempt initWikiPage).2.1).1 = false :=
  ⟨(c5_single_flight_guard initWikiPage rfl).1,
   (c5_single_flight_guard initWikiPage rfl).2.2.1⟩

/-- Claim C6, counterexample: a non-success HTTP status on the wiki start
request is only logged — the session does not end in an error state (the
error stays `none`), loading does not stop (`isLoading` remains true), and
no polling begins.  The claim holds only for thrown connection errors. -/
theorem c6_http_error_start_only_logged :
    (startWikiGeneration initWikiPage StartOutcome.httpError).error = none ∧
    (startWikiGeneration initWikiPage StartOutcome.httpError).isLoading = true ∧
    (startWikiGeneration initWikiPage StartOutcome.httpError).intervalMs = none ∧
    (startWikiGeneration initWikiPage StartOutcome.httpError).immediatePollIssued = false := by
  refine ⟨by decide, by decide, by decide, by decide⟩

/-- Claim C6, amended: a thrown connection error on the wiki start
request ends the session in an error state carrying the failure reason,
stops loading, and schedules no polling; a non-success HTTP status,
however, is only logged — no error state is set, loading continues, and no
polling begins either. -/
theorem c6_start_failure_behaviour (st : WikiPageState) (msg : Str)
    (h : st.requestInProgress = false) :
    (startWikiGeneration st (StartOutcome.thrown msg)).error = some msg ∧
    (startWikiGeneration st (StartOutcome.thrown msg)).isLoading = false ∧
    (startWikiGeneration st (StartOutcome.thrown msg)).loadingMessage = none ∧
    (startWikiGeneration st (StartOutcome.thrown msg)).intervalMs = st.intervalMs ∧
    (startWikiGeneration st (StartOutcome.thrown msg)).immediatePollIssued
      = st.immediatePollIssued ∧
    (startWikiGeneration st StartOutcome.httpError).error = none ∧
    (startWikiGeneration st StartOutcome.httpError).isLoading = true ∧
    (startWikiGeneration st StartOutcome.httpError).loadingMessage = some initializingMsg ∧
    (startWikiGeneration st StartOutcome.httpError).intervalMs = st.intervalMs ∧
    (startWikiGeneration st StartOutcome.httpError).immediatePollIssued
      = st.immediatePollIssued := by
  refine ⟨?_, ?_, ?_, ?_, ?_, ?_, ?_, ?_, ?_, ?_⟩ <;>
    simp [startWikiGeneration, startWikiAttempt, finishWikiAttempt, h]

/-- Claim C6, witness: a concrete thrown start error surfaces its message
and stops loading. -/
theorem c6_start_failure_witness :
    (startWikiGeneration initWikiPage (StartOutcome.thrown "boom".toList)).error
      = some "boom".toList :=
  (c6_start_failure_behaviour initWikiPage "boom".toList rfl).1

/-- Claim C7: a `data:`-prefixed line that fails to parse, injected
anywhere between valid lines, is skipped — the whole processing state
(buffers and session status) after the stream equals that of the same
line sequence without the malformed line. -/
theorem c7_malformed_line_skipped (P : Str → Option StreamResponse) (st : ProcState)
    (pre post : List Str) (bad : Str)
    (hbad : startsWithData bad = true → P (bad.drop 5) = none) :
    processLines P st (pre ++ bad :: post) = processLines P st (pre ++ post) := by
  unfold processLines
  rw [List.foldl_append, List.foldl_append, List.foldl_cons]
  have hmid : ∀ q : ProcState, processLine P q bad = q := by
    intro q
    unfold processLine
    by_cases hstop : q.stopped = true
    · rw [if_pos hstop]
    · rw [if_neg hstop]
      by_cases hsw : startsWithData bad = true
      · rw [if_pos hsw, hbad hsw]
      · rw [if_neg hsw]
  rw [hmid]

/-- Claim C7, witness: the concrete stream with a malformed line between
two chunk frames ends in the same state as without it. -/
theorem c7_malformed_line_witness :
    processLines parseFix initProc [mkDataLine pChunkAB, badLine, mkDataLine pChunkCD]
      = processLines parseFix initProc [mkDataLine pChunkAB, mkDataLine pChunkCD] :=
  c7_malformed_line_skipped parseFix initProc [mkDataLine pChunkAB] [mkDataLine pChunkCD]
    badLine (fun _ => by decide)

/-- Claim C8, counterexample: an `explanation_chunk` frame does not
transition the session status to `explanation_chunk` — after a stage
frame with status `explanation`, applying a chunk frame appends to the
buffer but leaves the status at `explanation`. -/
theorem c8_chunk_frame_keeps_status :
    (processStream parseFix initProc
        [serializeLines [mkDataLine pStage, mkDataLine pChunkAB]]).state.status
      = StatusTag.explanation ∧
    (processStream parseFix initProc
        [serializeLines [mkDataLine pStage, mkDataLine pChunkAB]]).explanation
      = "ab".toList ∧
    (processStream parseFix initProc
        [serializeLines [mkDataLine pStage, mkDataLine pChunkAB]]).state.status
      ≠ StatusTag.explanation_chunk := by
  refine ⟨by decide, by decide, by decide⟩

/-- Claim C8, amended: for a frame whose `error` field is not set, a
non-chunk non-terminal (progress) frame transitions the status to
`frame.status` and updates only the message, leaving all buffers
untouched; a `_chunk` frame leaves the status and message unchanged and
only appends its chunk to the matching buffer (the other buffers are
untouched) — it does not set the status to the `_chunk` tag. -/
theorem c8_frame_effects (st : ProcState) (d : StreamResponse)
    (herr : strTruthy d.error = false) :
    (isProgressTag d.status = true →
      applyFrame st d =
        { st with state := { st.state with status := d.status, message := d.message } }) ∧
    (d.status = StatusTag.explanation_chunk →
      (applyFrame st d).state.status = st.state.status ∧
      (applyFrame st d).state.message = st.state.message ∧
      (applyFrame st d).explanation = st.explanation ++ d.chunk.getD [] ∧
      (applyFrame st d).mapping = st.mapping ∧
      (applyFrame st d).diagram = st.diagram) ∧
    (d.status = StatusTag.mapping_chunk →
      (applyFrame st d).state.status = st.state.status ∧
      (applyFrame st d).state.message = st.state.message ∧
      (applyFrame st d).mapping = st.mapping ++ d.chunk.getD [] ∧
      (applyFrame st d).explanation = st.explanation ∧
      (applyFrame st d).diagram = st.diagram) ∧
    (d.status = StatusTag.diagram_chunk →
      (applyFrame st d).state.status = st.state.status ∧
      (applyFrame st d).state.message = st.state.message ∧
      (applyFrame st d).diagram = st.diagram ++ d.chunk.getD [] ∧
      (applyFrame st d).explanation = st.explanation ∧
      (applyFrame st d).mapping = st.mapping) := by
  refine ⟨?_, ?_, ?_, ?_⟩
  · intro hp
    cases hd : d.status <;> simp_all [applyFrame, isProgressTag, herr]
  · intro hd
    cases hc : strTruthy d.chunk
    · simp [applyFrame, herr, hd, hc, getD_nil_of_falsy d.chunk hc]
    · simp [applyFrame, herr, hd, hc]
  · intro hd
    cases hc : strTruthy d.chunk
    · simp [applyFrame, herr, hd, hc, getD_nil_of_falsy d.chunk hc]
    · simp [applyFrame, herr, hd, hc]
  · intro hd
    cases hc : strTruthy d.chunk
    · simp [applyFrame, herr, hd, hc, getD_nil_of_falsy d.chunk hc]
    · simp [applyFrame, herr, hd, hc]

/-- Claim C8, witness: the concrete `explanation` stage frame applied to
the initial state sets the status and message only. -/
theorem c8_frame_effects_witness :
    applyFrame initProc frameStage =
      { initProc with
          state := { initProc.state with
            status := frameStage.status, message := frameStage.message } } :=
  (c8_frame_effects initProc frameStage (by decide)).1 (by decide)

/-- Claim C9: a poll response with status `success` or a truthy error
cancels the recurring check and marks the task terminal (loading ends,
message cleared); a poll whose fetch throws cancels the recurring check
and changes nothing else (no retry); any other response leaves the
recurring interval and loading untouched; and a successful start issues an
immediate first check plus a recurring check on the fixed 2000 ms
interval. -/
theorem c9_poll_transitions (st : WikiPageState) (d : PollData)
    (hterm : d.status = "success".toList ∨ strTruthy d.error = true) :
    (pollStatus st (PollInput.response d)).intervalMs = none ∧
    (pollStatus st (PollInput.response d)).isLoading = false ∧
    (pollStatus st (PollInput.response d)).loadingMessage = none ∧
    (pollStatus st PollInput.transportFailure = { st with intervalMs := none }) ∧
    (∀ d2 : PollData, ¬ d2.status = "success".toList → strTruthy d2.error = false →
      (pollStatus st (PollInput.response d2)).intervalMs = st.intervalMs ∧
      (pollStatus st (PollInput.response d2)).isLoading = st.isLoading) ∧
    (∀ tid : Str, st.requestInProgress = false →
      (startWikiGeneration st (StartOutcome.ok tid)).immediatePollIssued = true ∧
      (startWikiGeneration st (StartOutcome.ok tid)).intervalMs = some wikiPollIntervalMs) ∧
    wikiPollIntervalMs = 2000 := by
  refine ⟨?_, ?_, ?_, rfl, ?_, ?_, rfl⟩
  · simp only [pollStatus]
    rw [if_pos hterm]
  · simp only [pollStatus]
    rw [if_pos hterm]
  · simp only [pollStatus]
    rw [if_pos hterm]
  · intro d2 h1 h2
    simp only [pollStatus]
    rw [if_neg (by
      rintro (hor | hor)
      · exact h1 hor
      · rw [h2] at hor
        exact Bool.false_ne_true hor)]
    by_cases hp : d2.status = "processing".toList ∧ d2.result.isSome = true
    · rw [if_pos hp]
      exact ⟨rfl, rfl⟩
    · rw [if_neg hp]
      exact ⟨rfl, rfl⟩
  · intro tid h
    refine ⟨?_, ?_⟩ <;>
      simp [startWikiGeneration, startWikiAttempt, finishWikiAttempt, h]

/-- Claim C9, witness: a concrete `success` poll response cancels the
recurring check. -/
theorem c9_poll_witness :
    (pollStatus initWikiPage (PollInput.response pollSuccessData)).intervalMs = none :=
  (c9_poll_transitions initWikiPage pollSuccessData (Or.inl rfl)).1

/-- Claim C10: applying a `complete` frame replaces the published session
state with only the terminal status and the frame's final `explanation`
and `diagram` snapshot fields — the mapping text accumulated from earlier
`mapping_chunk` frames and any prior progress message are discarded from
the session state. -/
theorem c10_complete_snapshot (st : ProcState) (d : StreamResponse)
    (herr : strTruthy d.error = false) (hc : d.status = StatusTag.complete) :
    (applyFrame st d).state =
      { status := StatusTag.complete
        message := none
        explanation := d.explanation
        mapping := none
        diagram := d.diagram
        error := none } := by
  simp [applyFrame, herr, hc]

/-- Claim C10, witness: the concrete `complete` frame applied to a state
with accumulated mapping text discards the mapping and the message from
the session state. -/
theorem c10_complete_snapshot_witness :
    stWithMapping.state.mapping = some "mm".toList ∧
    (applyFrame stWithMapping frameComplete).state =
      { status := StatusTag.complete
        message := none
        explanation := frameComplete.explanation
        mapping := none
        diagram := frameComplete.diagram
        error := none } :=
  ⟨by decide, c10_complete_snapshot stWithMapping frameComplete (by decide) (by decide)⟩
